import Mathlib

/-!
Shallow embedding of the capture-orchestration service in `src/index.js`
(M3264/ssweb-api): input validation, the device profile table, the
screenshot and screen-recording request handlers, the recording-artifact
correlation scan, and the temporary-file retention sweep.

Browser/page/filesystem effects are modelled by explicit oracles: each
fallible external step (`chromium.launch`, `page.goto`, ...) is an
`Except String Unit` value in an environment record (the `String` is the
JS error's `.message`), and the temporary directory is a `List FileEntry`
threaded through the handlers.  JS `undefined`-vs-string query parameters
are `Option String`; times are milliseconds since the epoch as `Int`.
-/

namespace SSWeb

/-- One file of the shared temporary directory: its name, its filesystem
modification time (`mtime`, milliseconds since the epoch) and its bytes. -/
structure FileEntry where
  name : String
  mtime : Int
  content : List Nat
deriving Repr, DecidableEq

/-- A viewport preset from the device profile table. -/
structure Viewport where
  width : Nat
  height : Nat
deriving Repr, DecidableEq

/-- A JSON scalar, kept tagged so a JSON string "false" and the JSON
boolean false remain distinguishable, as they are on the wire. -/
inductive JVal where
  | jstr : String → JVal
  | jbool : Bool → JVal
deriving Repr, DecidableEq

/-- The responses the two capture endpoints produce:
`file` is a 200 with a content type, a Content-Disposition header and a
byte body; `validationErr` is `res.status(400).json(\x7b error \x7d)`;
`serverErr` is the 500 JSON body
`\x7b status, success, creator, error, message \x7d` (lines 77-83 and
139-145 of `src/index.js`). -/
inductive Response where
  | file : String → String → List Nat → Response
  | validationErr : String → Response
  | serverErr : Nat → JVal → String → String → String → Response
deriving Repr, DecidableEq

/-- HTTP status code of a response. -/
def Response.statusCode : Response → Nat
  | .file _ _ _ => 200
  | .validationErr _ => 400
  | .serverErr _ _ _ _ _ => 500

/-- The `message` (or `error`) detail string of a JSON response body;
empty for a byte-body response. -/
def Response.errMessage : Response → String
  | .file _ _ _ => ""
  | .validationErr m => m
  | .serverErr _ _ _ _ m => m

/-! ## Input validation (src/index.js lines 17-29) -/

/-- A character allowed after the first character of a URL scheme. -/
def isSchemeRestChar (c : Char) : Bool :=
  c.isAlpha || c.isDigit || c == '+' || c == '-' || c == '.'

/-- Models the WHATWG `new URL(url)` constructor (line 20) succeeding on
an absolute-URL string: a scheme (one ASCII letter, then letters, digits,
`+`, `-` or `.`) terminated by a colon.  Strings with no colon, or with a
malformed scheme, make the constructor throw. -/
def jsURLparses (s : String) : Bool :=
  match s.toList.span (fun c => c != ':') with
  | (scheme, rest) =>
    !rest.isEmpty &&
    (match scheme with
     | c :: cs => c.isAlpha && cs.all isSchemeRestChar
     | [] => false)

/-- The `validDevices` array of line 24. -/
def validDevices : List String := ["phone", "tablet", "laptop", "desktop", "full"]

/-- The message built on line 26: `validDevices.join(', ')` interpolated
after the fixed prefix. -/
def invalidDeviceMsg : String :=
  "Invalid device. Must be one of: " ++ String.intercalate ", " validDevices

/-- Models `validateInput` (lines 17-29).  `url` and `device` are the raw
query values, `none` for an absent parameter.  JS string truthiness makes
the empty string behave like an absent value in both the `!url` guard and
the `device && ...` guard. -/
def validateInput (url device : Option String) : Option String :=
  match url with
  | none => some "URL parameter is required"
  | some u =>
    if u = "" then some "URL parameter is required"
    else if !jsURLparses u then some "Invalid URL format"
    else
      match device with
      | none => none
      | some d =>
        if d != "" && !(validDevices.contains d) then some invalidDeviceMsg
        else none

/-! ## Device profile table (src/index.js lines 31-37) -/

/-- Models `deviceConfigs`: the four fixed viewports; `full` maps to
`null` (no fixed viewport) and any other key is `undefined`, both
rendered here as `none`. -/
def deviceConfigs : String → Option Viewport
  | "phone" => some ⟨375, 667⟩
  | "tablet" => some ⟨768, 1024⟩
  | "laptop" => some ⟨1366, 768⟩
  | "desktop" => some ⟨1920, 1080⟩
  | _ => none

/-! ## Retention sweep (src/index.js lines 39-54) -/

/-- The retention window `thirtyMinutes` of line 41, in milliseconds. -/
def thirtyMinutesMs : Int := 30 * 60 * 1000

/-- An oracle saying no filesystem call fails. -/
def noFail : String → Bool := fun _ => false

/-- Models the `files.forEach` loop of lines 44-50 over the directory
listing: for each file, `statSync` (which `statFails` says may throw),
then the age test of line 47, then `unlinkSync` (which `unlinkFails` says
may throw).  A thrown error propagates out of `forEach`, so the first
failure ends the pass with every later file untouched; the second
component records whether that happened. -/
def sweepFiles (now : Int) (statFails unlinkFails : String → Bool) :
    List FileEntry → List FileEntry × Bool
  | [] => ([], false)
  | f :: fs =>
    if statFails f.name then (f :: fs, true)
    else if now - f.mtime > thirtyMinutesMs then
      if unlinkFails f.name then (f :: fs, true)
      else sweepFiles now statFails unlinkFails fs
    else
      let r := sweepFiles now statFails unlinkFails fs
      (f :: r.1, r.2)

/-- Models `cleanupTempFiles` (lines 39-52): `readdirSync` (whose success
`readdirOk` records), the forEach pass, and the surrounding
`try/catch(error) \x7b\x7d` that swallows whatever was thrown, so the
function always returns and the process never crashes.  The result is the
directory contents after the sweep. -/
def cleanupTempFiles (now : Int) (readdirOk : Bool)
    (statFails unlinkFails : String → Bool) (dir : List FileEntry) :
    List FileEntry :=
  if readdirOk then (sweepFiles now statFails unlinkFails dir).1 else dir

/-! ## Duration parsing (src/index.js line 117) -/

/-- Is `c` a digit of base `radix` (only 10 and 16 occur)? -/
def isRadixDigit (radix : Nat) (c : Char) : Bool :=
  if radix == 16 then
    c.isDigit || ('a' ≤ c && c ≤ 'f') || ('A' ≤ c && c ≤ 'F')
  else c.isDigit

/-- Numeric value of a digit character. -/
def charVal (c : Char) : Nat :=
  if c.isDigit then c.toNat - 48
  else if 'a' ≤ c && c ≤ 'f' then c.toNat - 87
  else if 'A' ≤ c && c ≤ 'F' then c.toNat - 55
  else 0

/-- Models the ECMAScript `parseInt(string)` call with no radix argument:
skip leading whitespace, read an optional sign, honour a `0x`/`0X` hex
prefix, then take the longest prefix of digits; `none` models a `NaN`
result (no digits found). -/
def jsParseInt (s : String) : Option Int :=
  let l := s.toList.dropWhile
    (fun c => c == ' ' || c == '\t' || c == '\n' || c == '\r')
  let sign : Int := match l with
    | '-' :: _ => -1
    | _ => 1
  let l1 : List Char := match l with
    | '-' :: r => r
    | '+' :: r => r
    | _ => l
  let radix : Nat := match l1 with
    | '0' :: 'x' :: _ => 16
    | '0' :: 'X' :: _ => 16
    | _ => 10
  let l2 : List Char := match l1 with
    | '0' :: 'x' :: r => r
    | '0' :: 'X' :: r => r
    | _ => l1
  let ds := l2.takeWhile (isRadixDigit radix)
  if ds.isEmpty then none
  else some (sign * Int.ofNat (ds.foldl (fun a c => a * radix + charVal c) 0))

/-- Models line 117, `Math.min(parseInt(duration) || 10, 30)`: `NaN` and
`0` are falsy and fall back to `10`; any other parsed value — negative
values included — is kept and only capped from above at 30. -/
def effectiveDuration (duration : String) : Int :=
  let base : Int := match jsParseInt duration with
    | none => 10
    | some n => if n = 0 then 10 else n
  min base 30

/-! ## Artifact correlation (src/index.js lines 123-124) -/

/-- Models the JS `file.endsWith('.webm')` test of line 123. -/
def hasWebmExt (name : String) : Bool :=
  ".webm".toList.isSuffixOf name.toList

/-- Models lines 123-124: filter the directory listing to `.webm` names,
then `find` the first one whose `mtime` is newer than ten seconds before
the scan time. -/
def locateArtifact (files : List FileEntry) (scanTime : Int) : Option FileEntry :=
  (files.filter (fun f => hasWebmExt f.name)).find?
    (fun f => scanTime - 10000 < f.mtime)

/-! ## GET /api/screenshot (src/index.js lines 56-87) -/

/-- Oracle for the fallible external steps of the screenshot handler, in
program order: `chromium.launch` (line 63), `browser.newPage` (line 67),
`page.setViewportSize` (line 68), `page.goto` (line 69) and
`page.screenshot` (line 72, whose success carries the PNG bytes).  The
fixed `waitForTimeout(2000)` settle delay of line 70 cannot fail. -/
structure ShotEnv where
  launch : Except String Unit
  newPage : Except String Unit
  setViewport : Except String Unit
  goto : Except String Unit
  shoot : Except String (List Nat)
deriving Repr

/-- Observable outcome of one screenshot request: the response sent, and
whether a browser process was ever launched, whether one is still running
when the handler finishes, which viewport `setViewportSize` applied (none
when it was skipped or never reached), and the `fullPage` flag of the
screenshot call when one was taken. -/
structure ShotResult where
  response : Response
  browserLaunched : Bool
  browserRunning : Bool
  viewportSet : Option Viewport
  shotFullPage : Option Bool
deriving Repr, DecidableEq

/-- The 500 body built on lines 77-83; note `success` is the JSON string
"false", and `creator` is a fixed extra field. -/
def err500shot (msg : String) : Response :=
  .serverErr 500 (.jstr "false") "GiftedTech" "Error creating screenshot" msg

/-- Models the `GET /api/screenshot` handler (lines 56-87).  `device`
defaults to "desktop" when absent (line 57); a validation error returns
400 before anything is launched (line 59); any error thrown in the `try`
is caught and answered with the 500 body; the `finally` of lines 84-86
closes the browser whenever one was launched, so `browserRunning` is
false on every path.  `now` is `Date.now()` of line 74. -/
def screenshotHandler (url device : Option String) (env : ShotEnv)
    (now : Int) : ShotResult :=
  let dev := device.getD "desktop"
  match validateInput url (some dev) with
  | some msg => ⟨.validationErr msg, false, false, none, none⟩
  | none =>
    match env.launch with
    | .error e => ⟨err500shot e, false, false, none, none⟩
    | .ok _ =>
      match env.newPage with
      | .error e => ⟨err500shot e, true, false, none, none⟩
      | .ok _ =>
        match (if dev = "full" then Except.ok () else env.setViewport) with
        | .error e => ⟨err500shot e, true, false, none, none⟩
        | .ok _ =>
          let vp := if dev = "full" then none else deviceConfigs dev
          match env.goto with
          | .error e => ⟨err500shot e, true, false, vp, none⟩
          | .ok _ =>
            match env.shoot with
            | .error e => ⟨err500shot e, true, false, vp, none⟩
            | .ok bytes =>
              ⟨.file "image/png"
                 ("inline; filename=\"gifted_ssweb-" ++ dev ++ "-" ++
                   toString now ++ ".png\"") bytes,
               true, false, vp, some (dev == "full")⟩

/-! ## GET /api/screenrecord (src/index.js lines 89-149) -/

/-- Oracle for the fallible external steps of the recording handler, in
program order: `chromium.launch` (line 99), `browser.newContext` (line
104), `context.newPage` (line 111), `page.setViewportSize` (line 112),
`page.goto` (line 114), `context.close` (line 120), `readFileSync` (line
129) and `unlinkSync` (line 135).  `tempFiles` is the temporary
directory's contents when `readdirSync` scans it on line 123, `scanTime`
the `Date.now()` of the recency test on line 124, and `startTime` the
`Date.now()` of the `recordingId` on line 96. -/
structure RecEnv where
  launch : Except String Unit
  newContext : Except String Unit
  newPage : Except String Unit
  setViewport : Except String Unit
  goto : Except String Unit
  closeCtx : Except String Unit
  readFile : Except String Unit
  unlinkOk : Bool
  tempFiles : List FileEntry
  scanTime : Int
  startTime : Int
deriving Repr

/-- Observable outcome of one recording request: the response, the
browser-lifecycle flags, the viewport applied, the duration (seconds) the
engine waited while recording when that wait was reached, and the
temporary directory's contents after the handler finishes. -/
structure RecResult where
  response : Response
  browserLaunched : Bool
  browserRunning : Bool
  viewportSet : Option Viewport
  recordDuration : Option Int
  tempAfter : List FileEntry
deriving Repr, DecidableEq

/-- The 500 body built on lines 139-145; `success` is again the JSON
string "false". -/
def err500rec (msg : String) : Response :=
  .serverErr 500 (.jstr "false") "GiftedTech" "Error creating screen recording" msg

/-- Models the `GET /api/screenrecord` handler (lines 89-149).  `device`
defaults to "desktop" and `duration` to "10" (line 90); validation
returns 400 before any launch (line 92); after `context.close` and the 2s
drain delay, lines 123-126 correlate the artifact by recency and a miss
throws `Video file not found` into the `catch`; on a hit the file's bytes
are sent and the file unlinked (line 135 — when `unlinkSync` throws, the
response was already sent, so the body stays the file's bytes and the
file stays on disk).  The `finally` of lines 146-148 closes the browser
whenever one was launched, so `browserRunning` is false on every path. -/
def screenrecordHandler (url device duration : Option String)
    (env : RecEnv) : RecResult :=
  let dev := device.getD "desktop"
  let dur := duration.getD "10"
  match validateInput url (some dev) with
  | some msg => ⟨.validationErr msg, false, false, none, none, env.tempFiles⟩
  | none =>
    match env.launch with
    | .error e => ⟨err500rec e, false, false, none, none, env.tempFiles⟩
    | .ok _ =>
      match env.newContext with
      | .error e => ⟨err500rec e, true, false, none, none, env.tempFiles⟩
      | .ok _ =>
        match env.newPage with
        | .error e => ⟨err500rec e, true, false, none, none, env.tempFiles⟩
        | .ok _ =>
          match (if dev = "full" then Except.ok () else env.setViewport) with
          | .error e => ⟨err500rec e, true, false, none, none, env.tempFiles⟩
          | .ok _ =>
            let vp := if dev = "full" then none else deviceConfigs dev
            match env.goto with
            | .error e => ⟨err500rec e, true, false, vp, none, env.tempFiles⟩
            | .ok _ =>
              let d := effectiveDuration dur
              match env.closeCtx with
              | .error e => ⟨err500rec e, true, false, vp, some d, env.tempFiles⟩
              | .ok _ =>
                match locateArtifact env.tempFiles env.scanTime with
                | none =>
                  ⟨err500rec "Video file not found", true, false, vp, some d,
                   env.tempFiles⟩
                | some f =>
                  match env.readFile with
                  | .error e =>
                    ⟨err500rec e, true, false, vp, some d, env.tempFiles⟩
                  | .ok _ =>
                    let resp : Response :=
                      .file "video/webm"
                        ("inline; filename=\"gifted_ssweb_rec-" ++ dev ++ "-" ++
                          toString env.startTime ++ ".webm\"") f.content
                    if env.unlinkOk then
                      ⟨resp, true, false, vp, some d,
                       env.tempFiles.filter (fun g => g.name != f.name)⟩
                    else
                      ⟨resp, true, false, vp, some d, env.tempFiles⟩

/-! ## Concrete environments used to exercise the handlers -/

/-- A screenshot environment in which every external step succeeds and
the capture yields the bytes `[7, 7]`. -/
def shotEnvOk : ShotEnv := ⟨.ok (), .ok (), .ok (), .ok (), .ok [7, 7]⟩

/-- A screenshot environment in which `chromium.launch` throws "boom". -/
def shotEnvFail : ShotEnv := ⟨.error "boom", .ok (), .ok (), .ok (), .ok []⟩

/-- A freshly written recording artifact: a `.webm` file modified five
seconds before the scan time used in `recEnvOk`. -/
def vidFile : FileEntry := ⟨"abc123.webm", 9995000, [1, 2, 3]⟩

/-- A recording environment in which every external step succeeds and the
temporary directory holds exactly `vidFile` at scan time. -/
def recEnvOk : RecEnv :=
  ⟨.ok (), .ok (), .ok (), .ok (), .ok (), .ok (), .ok (), true,
   [vidFile], 10000000, 9990000⟩

/-- A one-hour-old temporary file whose `statSync` the oracle
`statFailsA` makes throw. -/
def fileA : FileEntry := ⟨"a.tmp", 0, []⟩

/-- A one-hour-old temporary file with no filesystem errors. -/
def fileB : FileEntry := ⟨"b.tmp", 0, []⟩

/-- A temporary file written at the sweep instant itself (age zero). -/
def fileC : FileEntry := ⟨"c.tmp", 3600000, []⟩

/-- Oracle making exactly `fileA`'s `statSync` call throw. -/
def statFailsA : String → Bool := fun n => n == "a.tmp"

/-- Oracle making exactly `fileB`'s `unlinkSync` call throw. -/
def unlinkFailsB : String → Bool := fun n => n == "b.tmp"

/-! ## Helper lemmas -/

/-- A string accepted by the URL constructor is nonempty. -/
theorem jsURLparses_ne_empty {u : String} (h : jsURLparses u = true) :
    u ≠ "" := by
  intro h'
  subst h'
  exact absurd h (by decide)

/-- Validation accepts a parsing URL together with a device tag drawn
from the valid-device list. -/
theorem validateInput_ok_mem {u d : String} (h : jsURLparses u = true)
    (hd : validDevices.contains d = true) :
    validateInput (some u) (some d) = none := by
  have hne := jsURLparses_ne_empty h
  have hmem : d ∈ validDevices := List.mem_of_elem_eq_true hd
  simp [validateInput, hne, h, hmem]

/-- Validation accepts a parsing URL with an absent device tag. -/
theorem validateInput_ok_none {u : String} (h : jsURLparses u = true) :
    validateInput (some u) none = none := by
  have hne := jsURLparses_ne_empty h
  simp [validateInput, hne, h]

/-! ## Claims -/

/-- Claim C1: for every request to /api/screenshot or /api/screenrecord —
whether it fails validation, succeeds, throws at any step, or times out
during navigation — no browser process is left running when the handler
finishes: the `finally` blocks of lines 84-86 and 146-148 close whatever
browser was launched on every exit path. -/
theorem C1_session_release :
    (∀ url device env now,
      (screenshotHandler url device env now).browserRunning = false)
    ∧ (∀ url device duration env,
      (screenrecordHandler url device duration env).browserRunning = false) := by
  constructor
  · intro url device env now
    unfold screenshotHandler
    dsimp only
    repeat' split
    all_goals rfl
  · intro url device duration env
    unfold screenrecordHandler
    dsimp only
    repeat' split
    all_goals rfl

/-- Claim C8: a request that fails validation is answered 400 with the
validation message verbatim in the `error` field, before any resource is
allocated: no browser is launched, and the temporary directory is
untouched (lines 59 and 92 return before the `try` blocks). -/
theorem C8_validation_rejects (url device duration : Option String)
    (msg : String) (senv : ShotEnv) (renv : RecEnv) (now : Int)
    (h : validateInput url (some (device.getD "desktop")) = some msg) :
    screenshotHandler url device senv now
      = ⟨.validationErr msg, false, false, none, none⟩
    ∧ screenrecordHandler url device duration renv
      = ⟨.validationErr msg, false, false, none, none, renv.tempFiles⟩
    ∧ (Response.validationErr msg).statusCode = 400 := by
  refine ⟨?_, ?_, rfl⟩
  · unfold screenshotHandler
    dsimp only
    rw [h]
  · unfold screenrecordHandler
    dsimp only
    rw [h]

/-- Witness for C8 at a concrete failing request: both endpoints with no
`url` parameter answer 400 with "URL parameter is required" and leave
everything unallocated. -/
theorem C8_validation_rejects_witness :
    screenshotHandler none none shotEnvOk 0
      = ⟨.validationErr "URL parameter is required", false, false, none, none⟩
    ∧ screenrecordHandler none none none recEnvOk
      = ⟨.validationErr "URL parameter is required", false, false, none, none,
         recEnvOk.tempFiles⟩
    ∧ (Response.validationErr "URL parameter is required").statusCode = 400 :=
  C8_validation_rejects none none none "URL parameter is required"
    shotEnvOk recEnvOk 0 rfl

/-- Claim C5 counterexample: the claim says every non-null device tag
outside the valid set is rejected, but the empty string — a non-null tag
outside the set — passes validation, because line 25's `device && ...`
guard treats the falsy empty string like an absent device. -/
theorem C5_empty_device_cx :
    validateInput (some "https://example.com") (some "") = none
    ∧ "" ∉ validDevices
    ∧ (some "" : Option String) ≠ none := by
  exact ⟨rfl, by decide, by decide⟩

/-- Claim C5 (amended): `validateInput` rejects an absent or empty
address, rejects a nonempty address the URL constructor refuses, rejects
every non-null **nonempty** device tag outside the valid set with a
message listing the options, and returns null for every parsing absolute
URL with a known, absent — or empty — device tag. -/
theorem C5_validator (dev : Option String) :
    validateInput none dev = some "URL parameter is required"
    ∧ validateInput (some "") dev = some "URL parameter is required"
    ∧ (∀ u, u ≠ "" → jsURLparses u = false →
        validateInput (some u) dev = some "Invalid URL format")
    ∧ (∀ u d, jsURLparses u = true → d ≠ "" → d ∉ validDevices →
        validateInput (some u) (some d) = some invalidDeviceMsg)
    ∧ invalidDeviceMsg
        = "Invalid device. Must be one of: phone, tablet, laptop, desktop, full"
    ∧ (∀ u, jsURLparses u = true → validateInput (some u) none = none)
    ∧ (∀ u d, jsURLparses u = true → d ∈ validDevices →
        validateInput (some u) (some d) = none)
    ∧ (∀ u, jsURLparses u = true → validateInput (some u) (some "") = none) := by
  refine ⟨rfl, rfl, ?_, ?_, rfl, ?_, ?_, ?_⟩
  · intro u h1 h2
    simp [validateInput, h1, h2]
  · intro u d h hd1 hd2
    have hne := jsURLparses_ne_empty h
    simp [validateInput, hne, h, hd1, hd2]
  · intro u h
    exact validateInput_ok_none h
  · intro u d h hd
    exact validateInput_ok_mem h (List.elem_eq_true_of_mem hd)
  · intro u h
    have hne := jsURLparses_ne_empty h
    simp [validateInput, hne, h]

/-- Witness for C5 at concrete inputs: a valid URL with the unknown
nonempty device tag "watch" is rejected with the option-listing
message. -/
theorem C5_validator_witness :
    validateInput (some "https://example.com") (some "watch")
      = some invalidDeviceMsg :=
  (C5_validator (some "watch")).2.2.2.1 "https://example.com" "watch"
    (by decide) (by decide) (by decide)

/-- Claim C4 counterexample: the claim says every 500 body carries
`success` equal to the **boolean** false, but the bodies built on lines
79 and 141 set `success: 'false'` — the JSON **string** "false", which is
a different JSON value from the boolean (the /health body, by contrast,
uses the boolean true). Shown at a concrete failing request whose launch
throws "boom". -/
theorem C4_success_string_cx :
    (screenshotHandler (some "https://example.com") none shotEnvFail 0).response
      = .serverErr 500 (.jstr "false") "GiftedTech" "Error creating screenshot"
          "boom"
    ∧ (∀ b : Bool, JVal.jstr "false" ≠ JVal.jbool b) := by
  exact ⟨rfl, by decide⟩

/-- Claim C4 (amended): every 500 response of the capture endpoints has
the body `\x7b status: 500, success: "false" (the JSON string), creator:
"GiftedTech", error: <category>, message: <detail> \x7d`, with the
category fixed per endpoint. -/
theorem C4_error_body_shape :
    (∀ m, err500shot m
        = .serverErr 500 (.jstr "false") "GiftedTech" "Error creating screenshot" m)
    ∧ (∀ m, err500rec m
        = .serverErr 500 (.jstr "false") "GiftedTech"
            "Error creating screen recording" m)
    ∧ (∀ url device env now,
        (screenshotHandler url device env now).response.statusCode = 500 →
        (screenshotHandler url device env now).response
          = err500shot ((screenshotHandler url device env now).response.errMessage))
    ∧ (∀ url device duration env,
        (screenrecordHandler url device duration env).response.statusCode = 500 →
        (screenrecordHandler url device duration env).response
          = err500rec
              ((screenrecordHandler url device duration env).response.errMessage)) := by
  refine ⟨fun m => rfl, fun m => rfl, ?_, ?_⟩
  · intro url device env now
    unfold screenshotHandler
    dsimp only
    repeat' split
    all_goals intro h
    all_goals first
      | rfl
      | simp [Response.statusCode, err500shot] at h
  · intro url device duration env
    unfold screenrecordHandler
    dsimp only
    repeat' split
    all_goals intro h
    all_goals first
      | rfl
      | simp [Response.statusCode, err500rec] at h

/-- Witness for C4 (amended) at a concrete failing request: the 500
answer to a launch failure is exactly the `err500shot` body. -/
theorem C4_error_body_shape_witness :
    (screenshotHandler (some "https://example.com") none shotEnvFail 0).response
      = err500shot
          ((screenshotHandler (some "https://example.com") none shotEnvFail
              0).response.errMessage) :=
  C4_error_body_shape.2.2.1 (some "https://example.com") none shotEnvFail 0 rfl

/-- Claim C2 counterexample: the claim says the effective recording
duration always lies in [1, 30], but line 117 only caps from above:
`parseInt('-5') = -5` is truthy, so a requested duration of "-5" is used
as-is and the effective duration is -5, below the claimed interval. -/
theorem C2_negative_duration_cx :
    effectiveDuration "-5" = -5
    ∧ (screenrecordHandler (some "https://example.com") none (some "-5")
        recEnvOk).recordDuration = some (-5)
    ∧ ¬ (1 ≤ (-5 : Int)) := by
  exact ⟨by decide, by decide, by decide⟩

/-- Claim C2 (amended): for every duration value whose `parseInt` result
is nonnegative or NaN the effective duration lies in [1, 30] — absent
("10") or "0" give the default 10, "45" is capped at 30, "15" is used
as-is — but a duration parsing to a negative value is passed through
unclamped; the recording handler waits exactly `effectiveDuration` of its
(defaulted) duration parameter whenever the wait is reached. -/
theorem C2_duration_clamp :
    (∀ d : String, 0 ≤ (jsParseInt d).getD 0 →
        1 ≤ effectiveDuration d ∧ effectiveDuration d ≤ 30)
    ∧ effectiveDuration "10" = 10
    ∧ effectiveDuration "0" = 10
    ∧ effectiveDuration "45" = 30
    ∧ effectiveDuration "15" = 15
    ∧ (∀ url device duration env,
        (screenrecordHandler url device duration env).recordDuration = none
        ∨ (screenrecordHandler url device duration env).recordDuration
            = some (effectiveDuration (duration.getD "10"))) := by
  refine ⟨?_, rfl, rfl, rfl, rfl, ?_⟩
  · intro d hd
    unfold effectiveDuration
    cases hj : jsParseInt d with
    | none => simp [hj]
    | some n =>
      rw [hj] at hd
      simp only [Option.getD] at hd
      by_cases h0 : n = 0
      · subst h0
        simp [hj]
      · simp only [hj, h0, if_neg]
        constructor
        · exact le_min (by omega) (by norm_num)
        · exact min_le_right _ _
  · intro url device duration env
    unfold screenrecordHandler
    dsimp only
    repeat' split
    all_goals first
      | exact Or.inl rfl
      | exact Or.inr rfl

/-- Witness for C2 (amended) at a concrete input: "15" parses
nonnegatively and its effective duration lies in [1, 30]. -/
theorem C2_duration_clamp_witness :
    1 ≤ effectiveDuration "15" ∧ effectiveDuration "15" ≤ 30 :=
  C2_duration_clamp.1 "15" (by decide)

/-- The forEach pass stops at the first file on which a filesystem call
throws — its `statSync`, or the `unlinkSync` of a file old enough to be
removed: the prefix before it is processed normally, and the failing file
together with everything after it is left untouched. -/
theorem sweepFiles_abort_suffix (now : Int) (sF uF : String → Bool)
    (f : FileEntry) (post : List FileEntry)
    (hf : sF f.name = true
      ∨ (now - f.mtime > thirtyMinutesMs ∧ uF f.name = true)) :
    ∀ pre : List FileEntry, (sweepFiles now sF uF pre).2 = false →
      sweepFiles now sF uF (pre ++ f :: post)
        = ((sweepFiles now sF uF pre).1 ++ f :: post, true) := by
  intro pre
  induction pre with
  | nil =>
    intro _
    rcases hf with hs | ⟨hold, hu⟩
    · simp [sweepFiles, hs]
    · by_cases hs : sF f.name
      · simp [sweepFiles, hs]
      · simp [sweepFiles, hs, hold, hu]
  | cons p ps ih =>
    intro hpre
    by_cases hs : sF p.name
    · simp [sweepFiles, hs] at hpre
    · by_cases hold : now - p.mtime > thirtyMinutesMs
      · by_cases hu : uF p.name
        · simp [sweepFiles, hs, hold, hu] at hpre
        · simp only [sweepFiles, hs, hold, hu, List.cons_append, if_true,
            if_false, ite_true, ite_false, Bool.false_eq_true] at hpre ⊢
          exact ih hpre
      · simp only [sweepFiles, hs, hold, List.cons_append, List.append_eq,
          if_true, if_false, ite_true, ite_false, Bool.false_eq_true] at hpre ⊢
        rw [ih hpre]

/-- Claim C3 counterexample: the claim says a failure on one file does
not prevent the remaining files of the sweep from being examined and
deleted, but the try/catch of lines 42-51 wraps the whole forEach loop:
with `fileA`'s stat call throwing, `fileB` — an hour old, with no errors
of its own — survives the sweep untouched. -/
theorem C3_sweep_abort_cx :
    cleanupTempFiles 3600000 true statFailsA noFail [fileA, fileB]
      = [fileA, fileB]
    ∧ 3600000 - fileB.mtime > thirtyMinutesMs
    ∧ statFailsA fileB.name = false
    ∧ noFail fileB.name = false := by
  exact ⟨by decide, by decide, by decide, rfl⟩

/-- Claim C3 (amended): an error while reading one file (its `statSync`
throws) or removing it (it is old enough to delete and its `unlinkSync`
throws) is swallowed only at the level of the whole sweep — the process
never crashes and deletions already made stand, but the sweep of that
pass stops there: the failing file and every file after it in directory
order are left unexamined until a later sweep. -/
theorem C3_sweep_abort (now : Int) (sF uF : String → Bool)
    (pre : List FileEntry) (f : FileEntry) (post : List FileEntry)
    (hpre : (sweepFiles now sF uF pre).2 = false)
    (hf : sF f.name = true
      ∨ (now - f.mtime > thirtyMinutesMs ∧ uF f.name = true)) :
    cleanupTempFiles now true sF uF (pre ++ f :: post)
      = (sweepFiles now sF uF pre).1 ++ f :: post := by
  unfold cleanupTempFiles
  rw [if_pos rfl, sweepFiles_abort_suffix now sF uF f post hf pre hpre]

/-- Witness for C3 (amended) at concrete directories exercising both
failure kinds: with the fresh `fileC` first, a failing `statSync` on
`fileA` leaves `fileA :: [fileB]` untouched, and a failing `unlinkSync`
on the old `fileB` leaves `fileB :: [fileA]` untouched. -/
theorem C3_sweep_abort_witness :
    (cleanupTempFiles 3600000 true statFailsA noFail
        ([fileC] ++ fileA :: [fileB])
      = (sweepFiles 3600000 statFailsA noFail [fileC]).1 ++ fileA :: [fileB])
    ∧ (cleanupTempFiles 3600000 true noFail unlinkFailsB
        ([fileC] ++ fileB :: [fileA])
      = (sweepFiles 3600000 noFail unlinkFailsB [fileC]).1 ++ fileB :: [fileA]) :=
  ⟨C3_sweep_abort 3600000 statFailsA noFail [fileC] fileA [fileB]
      (by decide) (Or.inl (by decide)),
   C3_sweep_abort 3600000 noFail unlinkFailsB [fileC] fileB [fileA]
      (by decide) (Or.inr ⟨by decide, by decide⟩)⟩

/-- An error-free sweep pass keeps exactly the files whose age is within
the retention window. -/
theorem sweepFiles_noFail_eq (now : Int) (dir : List FileEntry) :
    sweepFiles now noFail noFail dir
      = (dir.filter (fun f => now - f.mtime ≤ thirtyMinutesMs), false) := by
  induction dir with
  | nil => rfl
  | cons f fs ih =>
    by_cases h : now - f.mtime > thirtyMinutesMs
    · have h2 : ¬ (now - f.mtime ≤ thirtyMinutesMs) := not_le.mpr h
      simp only [sweepFiles, noFail, ih, List.filter_cons, decide_eq_true_eq,
        Bool.false_eq_true, h, h2, if_true, if_false, ite_true, ite_false]
    · have h2 : now - f.mtime ≤ thirtyMinutesMs := not_lt.mp h
      simp only [sweepFiles, noFail, ih, List.filter_cons, decide_eq_true_eq,
        Bool.false_eq_true, h, h2, if_true, if_false, ite_true, ite_false]

/-- Claim C7: on an error-free sweep, a file of the temporary directory
survives `cleanupTempFiles` if and only if its modification time is not
more than 30 minutes in the past — equivalently, it is deleted exactly
when `now - mtime` exceeds the 30-minute retention window of line 47. -/
theorem C7_retention (now : Int) (dir : List FileEntry) (f : FileEntry)
    (hf : f ∈ dir) :
    f ∈ cleanupTempFiles now true noFail noFail dir
      ↔ ¬ (now - f.mtime > thirtyMinutesMs) := by
  simp [cleanupTempFiles, sweepFiles_noFail_eq, List.mem_filter, hf, not_lt]

/-- Witness for C7 at concrete files: on a sweep at t = 31 minutes, a
file written at t = 0 (31 minutes old) is deleted, and a file written at
t = 26 minutes (5 minutes old) is retained. -/
theorem C7_retention_witness :
    ((⟨"old.webm", 0, []⟩ : FileEntry) ∈
        cleanupTempFiles 1860000 true noFail noFail
          [⟨"old.webm", 0, []⟩, ⟨"fresh.webm", 1560000, []⟩]
      ↔ ¬ ((1860000 : Int) - (⟨"old.webm", 0, []⟩ : FileEntry).mtime
            > thirtyMinutesMs))
    ∧ ((⟨"fresh.webm", 1560000, []⟩ : FileEntry) ∈
        cleanupTempFiles 1860000 true noFail noFail
          [⟨"old.webm", 0, []⟩, ⟨"fresh.webm", 1560000, []⟩]
      ↔ ¬ ((1860000 : Int) - (⟨"fresh.webm", 1560000, []⟩ : FileEntry).mtime
            > thirtyMinutesMs)) :=
  ⟨C7_retention 1860000 [⟨"old.webm", 0, []⟩, ⟨"fresh.webm", 1560000, []⟩]
      ⟨"old.webm", 0, []⟩ (by decide),
   C7_retention 1860000 [⟨"old.webm", 0, []⟩, ⟨"fresh.webm", 1560000, []⟩]
      ⟨"fresh.webm", 1560000, []⟩ (by decide)⟩

/-- Claim C6: after the recording context is closed, the handler selects
a `.webm` file of the shared temporary directory whose modification time
is within the 10-second recency window before the scan instant; when one
exists the response carries its bytes and the file is removed from the
directory, and when none exists the request fails as a 500 capture
failure carrying "Video file not found". -/
theorem C6_artifact_correlation (u : String) (device duration : Option String)
    (env : RecEnv)
    (hv : validateInput (some u) (some (device.getD "desktop")) = none)
    (h1 : env.launch = .ok ()) (h2 : env.newContext = .ok ())
    (h3 : env.newPage = .ok ()) (h4 : env.setViewport = .ok ())
    (h5 : env.goto = .ok ()) (h6 : env.closeCtx = .ok ())
    (h7 : env.readFile = .ok ()) (h8 : env.unlinkOk = true) :
    (∀ f, locateArtifact env.tempFiles env.scanTime = some f →
      (hasWebmExt f.name = true ∧ env.scanTime - 10000 < f.mtime
          ∧ f ∈ env.tempFiles)
      ∧ (screenrecordHandler (some u) device duration env).response
          = .file "video/webm"
              ("inline; filename=\"gifted_ssweb_rec-" ++ device.getD "desktop"
                ++ "-" ++ toString env.startTime ++ ".webm\"") f.content
      ∧ (screenrecordHandler (some u) device duration env).tempAfter
          = env.tempFiles.filter (fun g => g.name != f.name))
    ∧ (locateArtifact env.tempFiles env.scanTime = none →
      (screenrecordHandler (some u) device duration env).response
          = err500rec "Video file not found"
      ∧ (screenrecordHandler (some u) device duration env).response.statusCode
          = 500
      ∧ (screenrecordHandler (some u) device duration env).tempAfter
          = env.tempFiles) := by
  constructor
  · intro f hf
    refine ⟨?_, ?_⟩
    · have hmem := List.mem_of_find?_eq_some hf
      have hpred := List.find?_some hf
      rw [List.mem_filter] at hmem
      exact ⟨hmem.2, by simpa using hpred, hmem.1⟩
    · unfold screenrecordHandler
      simp only [hv, h1, h2, h3, h4, h5, h6, h7, h8, hf, ite_self,
        if_true, ite_true]
      exact ⟨trivial, trivial⟩
  · intro hf
    unfold screenrecordHandler
    simp only [hv, h1, h2, h3, h4, h5, h6, h7, h8, hf, ite_self,
      if_true, ite_true]
    exact ⟨trivial, rfl, trivial⟩

/-- Witness for C6 at a concrete request whose directory holds exactly
one fresh recording, `vidFile`: its bytes are served and it is removed
from the directory. -/
theorem C6_artifact_correlation_witness :
    (hasWebmExt vidFile.name = true
        ∧ recEnvOk.scanTime - 10000 < vidFile.mtime
        ∧ vidFile ∈ recEnvOk.tempFiles)
    ∧ (screenrecordHandler (some "https://example.com") none none
          recEnvOk).response
        = .file "video/webm"
            ("inline; filename=\"gifted_ssweb_rec-"
              ++ (none : Option String).getD "desktop" ++ "-"
              ++ toString recEnvOk.startTime ++ ".webm\"") vidFile.content
    ∧ (screenrecordHandler (some "https://example.com") none none
          recEnvOk).tempAfter
        = recEnvOk.tempFiles.filter (fun g => g.name != vidFile.name) :=
  (C6_artifact_correlation "https://example.com" none none recEnvOk
      (by decide) rfl rfl rfl rfl rfl rfl rfl rfl).1 vidFile (by decide)

/-- Claim C9: for each known fixed device tag the viewport applied before
navigation equals the device table's dimensions — phone 375x667, tablet
768x1024, laptop 1366x768, desktop 1920x1080 — while the tag "full"
applies no fixed viewport and takes the screenshot with full-page
capture; an absent device parameter behaves exactly as "desktop". -/
theorem C9_device_profiles (env : ShotEnv) (now : Int) (u : String)
    (bs : List Nat) (hu : jsURLparses u = true)
    (h1 : env.launch = .ok ()) (h2 : env.newPage = .ok ())
    (h3 : env.setViewport = .ok ()) (h4 : env.goto = .ok ())
    (h5 : env.shoot = .ok bs) :
    (screenshotHandler (some u) (some "phone") env now).viewportSet
        = deviceConfigs "phone"
    ∧ (screenshotHandler (some u) (some "tablet") env now).viewportSet
        = deviceConfigs "tablet"
    ∧ (screenshotHandler (some u) (some "laptop") env now).viewportSet
        = deviceConfigs "laptop"
    ∧ (screenshotHandler (some u) (some "desktop") env now).viewportSet
        = deviceConfigs "desktop"
    ∧ deviceConfigs "phone" = some ⟨375, 667⟩
    ∧ deviceConfigs "tablet" = some ⟨768, 1024⟩
    ∧ deviceConfigs "laptop" = some ⟨1366, 768⟩
    ∧ deviceConfigs "desktop" = some ⟨1920, 1080⟩
    ∧ (screenshotHandler (some u) (some "full") env now).viewportSet = none
    ∧ (screenshotHandler (some u) (some "full") env now).shotFullPage
        = some true
    ∧ (screenshotHandler (some u) (some "desktop") env now).shotFullPage
        = some false
    ∧ screenshotHandler (some u) none env now
        = screenshotHandler (some u) (some "desktop") env now := by
  have hne := jsURLparses_ne_empty hu
  refine ⟨?_, ?_, ?_, ?_, rfl, rfl, rfl, rfl, ?_, ?_, ?_, rfl⟩
  all_goals
    simp [screenshotHandler, validateInput, hne, hu, h1, h2, h3, h4, h5,
      deviceConfigs, validDevices]

/-- Witness for C9 at a concrete request in the all-success environment
`shotEnvOk`. -/
theorem C9_device_profiles_witness :
    (screenshotHandler (some "https://example.com") (some "phone") shotEnvOk
        0).viewportSet = deviceConfigs "phone"
    ∧ (screenshotHandler (some "https://example.com") (some "tablet") shotEnvOk
        0).viewportSet = deviceConfigs "tablet"
    ∧ (screenshotHandler (some "https://example.com") (some "laptop") shotEnvOk
        0).viewportSet = deviceConfigs "laptop"
    ∧ (screenshotHandler (some "https://example.com") (some "desktop") shotEnvOk
        0).viewportSet = deviceConfigs "desktop"
    ∧ deviceConfigs "phone" = some ⟨375, 667⟩
    ∧ deviceConfigs "tablet" = some ⟨768, 1024⟩
    ∧ deviceConfigs "laptop" = some ⟨1366, 768⟩
    ∧ deviceConfigs "desktop" = some ⟨1920, 1080⟩
    ∧ (screenshotHandler (some "https://example.com") (some "full") shotEnvOk
        0).viewportSet = none
    ∧ (screenshotHandler (some "https://example.com") (some "full") shotEnvOk
        0).shotFullPage = some true
    ∧ (screenshotHandler (some "https://example.com") (some "desktop") shotEnvOk
        0).shotFullPage = some false
    ∧ screenshotHandler (some "https://example.com") none shotEnvOk 0
        = screenshotHandler (some "https://example.com") (some "desktop")
            shotEnvOk 0 :=
  C9_device_profiles shotEnvOk 0 "https://example.com" [7, 7]
    (by decide) rfl rfl rfl rfl rfl

/-- Claim C10: a duration query value that does not parse as an integer
(such as "abc") does not fail validation — the handler behaves exactly as
if the duration were absent, silently using the default of 10 seconds. -/
theorem C10_nonparsing_duration (url device : Option String) (env : RecEnv)
    (dur : String) (h : jsParseInt dur = none) :
    effectiveDuration dur = 10
    ∧ screenrecordHandler url device (some dur) env
        = screenrecordHandler url device none env := by
  have he : effectiveDuration dur = 10 := by
    simp [effectiveDuration, h]
  refine ⟨he, ?_⟩
  unfold screenrecordHandler
  simp only [Option.getD]
  rw [he, show effectiveDuration "10" = 10 from rfl]

/-- Witness for C10 at the concrete non-parsing duration "abc". -/
theorem C10_nonparsing_duration_witness :
    effectiveDuration "abc" = 10
    ∧ screenrecordHandler (some "https://example.com") none (some "abc")
        recEnvOk
      = screenrecordHandler (some "https://example.com") none none recEnvOk :=
  C10_nonparsing_duration (some "https://example.com") none recEnvOk "abc" rfl

end SSWeb
